import Mathlib

/-!
Verification of `lollms/server/endpoints/lollms_generator.py` (tobitege/lollms).

This file shallowly embeds the text-generation endpoint module: the
antiprompt (hallucination) guard, the streaming and non-streaming chunk
callbacks, the polling consumer loop of the streaming bridge, the sampling
parameter resolution, and the three HTTP endpoint handlers with their
catch-all error wrappers.  Strings are modelled as `List Char`; the binding
(the external model backend) is modelled abstractly by the chunk sequence it
offers to the callback.
-/

namespace Lollms

/-- `leadsWith s pat` is true when `pat` is an initial segment of `s`. -/
def leadsWith : List Char → List Char → Bool
  | _, [] => true
  | [], _ :: _ => false
  | c :: s, p :: ps => c == p && leadsWith s ps

/-- Index of the first occurrence of `pat` inside `text`, if any
(Python `text.find(pat)` restricted to found/not-found). -/
def findMarkerIdx (pat : List Char) : List Char → Option Nat
  | [] => if leadsWith [] pat then some 0 else none
  | c :: s =>
    if leadsWith (c :: s) pat then some 0
    else (findMarkerIdx pat s).map (fun i => i + 1)

/-- Modelled from the spec: `detect_antiprompt` from `lollms.utilities`
(not under `src/`): "scan the accumulated text for any configured
antiprompt marker"; returns the first configured marker (in configuration
order) that occurs in `text`, if any. -/
def detect_antiprompt (antiprompts : List (List Char)) (text : List Char) :
    Option (List Char) :=
  antiprompts.find? (fun a => (findMarkerIdx a text).isSome)

/-- Modelled from the spec: `remove_text_from_string` from
`lollms.utilities` (not under `src/`): "truncate accumulated text to remove
the marker and everything after it" — keep only what precedes the first
occurrence of `marker`. -/
def remove_text_from_string (text marker : List Char) : List Char :=
  match findMarkerIdx marker text with
  | some i => text.take i
  | none => text

/-- Truncate `text` at the first detected antiprompt, if any;
otherwise return it unchanged. -/
def truncateFirst (antiprompts : List (List Char)) (text : List Char) :
    List Char :=
  match detect_antiprompt antiprompts text with
  | some a => remove_text_from_string text a
  | none => text

/-- The non-streaming callback of `/lollms_generate` (source lines
199–208): append the chunk to the accumulated text, scan for an
antiprompt; on a match truncate and signal stop (`false`), otherwise
signal continue (`true`). -/
def nostreamCallback (antiprompts : List (List Char)) (accText chunk : List Char) :
    List Char × Bool :=
  let t := accText ++ chunk
  match detect_antiprompt antiprompts t with
  | some a => (remove_text_from_string t a, false)
  | none => (t, true)

/-- The binding's generate loop as seen by the non-streaming callback:
feed the offered chunks one by one, stopping as soon as the callback
returns `false`; the result is the final accumulated text. -/
def runGenerate (antiprompts : List (List Char)) :
    List (List Char) → List Char → List Char
  | [], acc => acc
  | c :: rest, acc =>
    match nostreamCallback antiprompts acc c with
    | (t, true) => runGenerate antiprompts rest t
    | (t, false) => t

/-- The chunks actually handed to the callback during `runGenerate`:
all offered chunks up to and including the one on which the callback
signalled stop. -/
def emittedChunks (antiprompts : List (List Char)) :
    List (List Char) → List Char → List (List Char)
  | [], _ => []
  | c :: rest, acc =>
    match nostreamCallback antiprompts acc c with
    | (t, true) => c :: emittedChunks antiprompts rest t
    | (_, false) => [c]

/-- Session state of a streaming request: `text` is `output["text"]`
(the accumulated text) and `pending` is `output["new"]`: the chunks the
callback has forwarded and the consumer loop has not yet drained.
Delivery of these chunks to the HTTP client depends on the interleaving
of the producer thread and the consumer loop (see `runSched`). -/
structure StreamOut where
  text : List Char
  pending : List (List Char)
deriving DecidableEq

/-- The streaming callback of `/lollms_generate` (source lines 145–163)
and, identically, of `/v1/chat/completions` (source lines 342–364):
if the global cancellation flag is set, signal stop without touching the
session; if the chunk is `None`, return without touching the session
(Python returns `None`, modelled as signal `none`); otherwise append the
chunk to the accumulated text, scan for an antiprompt — on a match
truncate the text, do not forward the chunk, and signal stop; otherwise
forward the chunk and signal continue. -/
def streamCallback (antiprompts : List (List Char)) (cancel : Bool)
    (st : StreamOut) (chunk : Option (List Char)) : StreamOut × Option Bool :=
  if cancel then (st, some false)
  else
    match chunk with
    | none => (st, none)
    | some c =>
      let t := st.text ++ c
      match detect_antiprompt antiprompts t with
      | some a => (⟨remove_text_from_string t a, st.pending⟩, some false)
      | none => (⟨t, st.pending ++ [c]⟩, some true)

/-- The binding's generate loop as seen by the streaming callback (with
the cancellation flag never set): feed chunks until the callback signals
stop. -/
def runStream (antiprompts : List (List Char)) :
    List (List Char) → StreamOut → StreamOut
  | [], st => st
  | c :: rest, st =>
    match streamCallback antiprompts false st (some c) with
    | (st2, some true) => runStream antiprompts rest st2
    | (st2, _) => st2

/-- The chunks the streaming callback forwards to `output["new"]` over a
full producer run, in forwarding order.  This is the producer side only:
the consumer loop (source lines 185–194) drains and yields these chunks in
batches, but performs no final drain after observing
`output["waiting"] == False`, so which of them actually reach the HTTP
client depends on the thread interleaving — delivery is modelled
separately by `runSched`. -/
def forwardedChunks (antiprompts : List (List Char)) (chunks : List (List Char)) :
    List (List Char) :=
  (runStream antiprompts chunks ⟨[], []⟩).pending

/-- The server configuration's sampling parameters (`elf_server.config`).
Python floats are modelled as rationals; no arithmetic is performed on
them, they are only selected and passed through. -/
structure SamplingConfig where
  temperature : Rat
  top_k : Int
  top_p : Rat
  repeat_penalty : Rat
  repeat_last_n : Int
  seed : Int
  n_threads : Int
deriving DecidableEq

/-- The request body of `/lollms_generate` (`LollmsGenerateRequest`,
source lines 92–104); every sampling field is optional (`None` when
unset). -/
structure LollmsGenerateRequest where
  text : List Char
  n_predict : Int
  stream : Bool
  temperature : Option Rat
  top_k : Option Int
  top_p : Option Rat
  repeat_penalty : Option Rat
  repeat_last_n : Option Int
  seed : Option Int
  n_threads : Option Int

/-- The sampling parameters `/lollms_generate` passes to
`binding.generate` (source lines 173–179 and 213–219): each field is
`request.<field> if request.<field> is not None else
elf_server.config.<field>`, evaluated at call time. -/
def resolvedParams (req : LollmsGenerateRequest) (config : SamplingConfig) :
    SamplingConfig where
  temperature := match req.temperature with
    | some v => v
    | none => config.temperature
  top_k := match req.top_k with
    | some v => v
    | none => config.top_k
  top_p := match req.top_p with
    | some v => v
    | none => config.top_p
  repeat_penalty := match req.repeat_penalty with
    | some v => v
    | none => config.repeat_penalty
  repeat_last_n := match req.repeat_last_n with
    | some v => v
    | none => config.repeat_last_n
  seed := match req.seed with
    | some v => v
    | none => config.seed
  n_threads := match req.n_threads with
    | some v => v
    | none => config.n_threads

/-- One chat message of `/v1/chat/completions` (`Message`, source lines
231–233). -/
structure Message where
  role : List Char
  content : List Char

/-- The text contributed by one message: `f"{message.role}: {message.content}\n"`
(source line 332). -/
def fmtMessage (m : Message) : List Char :=
  m.role ++ (':' :: ' ' :: []) ++ m.content ++ ('\n' :: [])

/-- Prompt flattening of `/v1/chat/completions` (source lines 330–332):
`text += f"{message.role}: {message.content}\n"` over the messages in
order, starting from the empty string. -/
def flattenMessages (msgs : List Message) : List Char :=
  msgs.foldl (fun acc m => acc ++ fmtMessage m) []

/-- The max-token count `/v1/chat/completions` passes to the binding
(source line 333): `request.max_tokens if request.max_tokens>0 else 1024`. -/
def v1ChatNPredict (max_tokens : Int) : Int :=
  if max_tokens > 0 then max_tokens else 1024

/-- Python `x or d` on an optional float: the value when present and
truthy (non-zero), otherwise the default (source lines 370 and 413:
`request.temperature or elf_server.config.temperature`). -/
def pyOr (x : Option Rat) (d : Rat) : Rat :=
  match x with
  | some v => if v == 0 then d else v
  | none => d

/-- The request body of `/v1/chat/completions` (`GenerationRequest`,
source lines 319–323). -/
structure V1ChatRequest where
  messages : List Message
  max_tokens : Int
  stream : Bool
  temperature : Option Rat

/-- The loosely-typed request body of `/v1/completions` (source lines
434–437, read with `data.get`): every field may be absent. -/
structure V1CompletionRequest where
  prompt : Option (List Char)
  max_tokens : Option Int
  stream : Option Bool
  temperature : Option Rat

/-- Abstract model of the mounted binding (`elf_server.binding`): for each
of the three call shapes the module uses, the run it produces — either the
chunk sequence it would offer to the callback, or the message of the
exception `generate` raises.  `emit` is the full-parameter call of
`/lollms_generate`, `emitT` the temperature-only call of
`/v1/chat/completions`, `emitLoose` the loosely-typed call of
`/v1/completions`. -/
structure Binding where
  emit : List Char → Int → SamplingConfig → Except (List Char) (List (List Char))
  emitT : List Char → Int → Rat → Except (List Char) (List (List Char))
  emitLoose : Option (List Char) → Option Int → Rat →
    Except (List Char) (List (List Char))

/-- The server collaborator as this module sees it: a nullable binding and
the configured sampling defaults. -/
structure ElfServer where
  binding : Option Binding
  config : SamplingConfig

/-- The response an endpoint hands back, projected to the content the
module computes.  `streamResponse` and `chatStreamResponse` carry the
chunk sequence the callback forwards to `output["new"]` (the client
receives an interleaving-dependent batch-prefix of it, see `runSched`);
`errorResponse msg` stands for
`{"status": False, "error": msg}`; `rawStreamResponse` stands for the
`/v1/completions` streaming response, whose payload is the iteration of
`binding.generate`'s return value (the module's own callback there is a
generator function whose body never runs, so the payload is not derived
from the chunk sequence and is left abstract). -/
inductive EndpointResponse where
  | nullResponse
  | textResponse (text : List Char)
  | streamResponse (chunks : List (List Char))
  | chatResponse (message : List Char)
  | chatStreamResponse (deltas : List (List Char))
  | rawStreamResponse
  | errorResponse (message : List Char)
deriving DecidableEq

/-- What a handler run produced: the response, how many times
`binding.generate` was invoked on behalf of the request, and the
exceptions reported to the server's error sink (`elf_server.error`). -/
structure HandlerOutcome where
  response : EndpointResponse
  generateCalls : Nat
  errorsReported : List (List Char)
deriving DecidableEq

/-- The catch-all `try/except` wrapper shared by the three handlers
(source lines 224–227, 418–421, 483–486): an exception escaping the body
is reported to the error sink and turned into
`{"status": False, "error": str(ex)}`. -/
def wrapHandler (body : Except (List Char) EndpointResponse × Nat) :
    HandlerOutcome :=
  match body with
  | (Except.ok r, n) => ⟨r, n, []⟩
  | (Except.error e, n) => ⟨EndpointResponse.errorResponse e, n, [e]⟩

/-- Body of the `/lollms_generate` handler (source lines 133–223).  In the
streaming branch `binding.generate` runs lazily in a background thread, so
an exception it raises is not observable before the response is returned;
the modelled stream payload records the chunk sequence the callback
forwards on the successful run (delivery to the client is
interleaving-dependent and modelled by `runSched`; an erroring run is
projected to the empty chunk list, and no error surfaces to the wrapper,
matching the code, where the `except` block cannot catch it). -/
def lollms_generate_body (antiprompts : List (List Char)) (server : ElfServer)
    (req : LollmsGenerateRequest) : Except (List Char) EndpointResponse × Nat :=
  match server.binding with
  | none => (Except.ok EndpointResponse.nullResponse, 0)
  | some b =>
    if req.stream then
      (Except.ok (EndpointResponse.streamResponse (forwardedChunks antiprompts
        ((b.emit req.text req.n_predict
          (resolvedParams req server.config)).toOption.getD []))), 1)
    else
      match b.emit req.text req.n_predict (resolvedParams req server.config) with
      | Except.error e => (Except.error e, 1)
      | Except.ok chunks =>
        (Except.ok (EndpointResponse.textResponse
          (runGenerate antiprompts chunks [])), 1)

/-- The `/lollms_generate` handler. -/
def lollms_generate_ep (antiprompts : List (List Char)) (server : ElfServer)
    (req : LollmsGenerateRequest) : HandlerOutcome :=
  wrapHandler (lollms_generate_body antiprompts server req)

/-- Body of the `/v1/chat/completions` handler (source lines 327–417):
flatten the messages, compute the max-token count, and run the same
streaming or non-streaming bridge with a temperature-only binding call.
As in `/lollms_generate`, the streaming branch runs the binding lazily. -/
def v1_chat_completions_body (antiprompts : List (List Char)) (server : ElfServer)
    (req : V1ChatRequest) : Except (List Char) EndpointResponse × Nat :=
  match server.binding with
  | none => (Except.ok EndpointResponse.nullResponse, 0)
  | some b =>
    if req.stream then
      (Except.ok (EndpointResponse.chatStreamResponse (forwardedChunks antiprompts
        ((b.emitT (flattenMessages req.messages) (v1ChatNPredict req.max_tokens)
          (pyOr req.temperature server.config.temperature)).toOption.getD []))), 1)
    else
      match b.emitT (flattenMessages req.messages) (v1ChatNPredict req.max_tokens)
          (pyOr req.temperature server.config.temperature) with
      | Except.error e => (Except.error e, 1)
      | Except.ok chunks =>
        (Except.ok (EndpointResponse.chatResponse
          (runGenerate antiprompts chunks [])), 1)

/-- The `/v1/chat/completions` handler. -/
def v1_chat_completions_ep (antiprompts : List (List Char)) (server : ElfServer)
    (req : V1ChatRequest) : HandlerOutcome :=
  wrapHandler (v1_chat_completions_body antiprompts server req)

/-- Body of the `/v1/completions` handler (source lines 433–482).  Both
branches call `binding.generate` eagerly inside the `try` block (the
streaming branch's `generate_chunks` is a plain function that calls
`generate` before the response is returned). -/
def v1_completion_body (antiprompts : List (List Char)) (server : ElfServer)
    (req : V1CompletionRequest) : Except (List Char) EndpointResponse × Nat :=
  match server.binding with
  | none => (Except.ok EndpointResponse.nullResponse, 0)
  | some b =>
    let temp := match req.temperature with
      | some v => v
      | none => server.config.temperature
    if req.stream.getD false then
      match b.emitLoose req.prompt req.max_tokens temp with
      | Except.error e => (Except.error e, 1)
      | Except.ok _ => (Except.ok EndpointResponse.rawStreamResponse, 1)
    else
      match b.emitLoose req.prompt req.max_tokens temp with
      | Except.error e => (Except.error e, 1)
      | Except.ok chunks =>
        (Except.ok (EndpointResponse.textResponse
          (runGenerate antiprompts chunks [])), 1)

/-- The `/v1/completions` handler. -/
def v1_completion_ep (antiprompts : List (List Char)) (server : ElfServer)
    (req : V1CompletionRequest) : HandlerOutcome :=
  wrapHandler (v1_completion_body antiprompts server req)

/-- Program counter of the streaming consumer loop of `/lollms_generate`
(source lines 185–194): the outer `while` test, the inner wait test, the
drain body, and loop exit. -/
inductive LoopPC where
  | outerTest
  | innerTest
  | drain
  | done
deriving DecidableEq

/-- Observable state of the streaming consumer loop together with the
shared flags: `waiting` is `output["waiting"]`, `pending` is
`output["new"]`, `cancel` is the process-wide `elf_server.cancel_gen`,
`yielded` the chunks sent to the HTTP client so far. -/
structure LoopState where
  waiting : Bool
  pending : List (List Char)
  cancel : Bool
  yielded : List (List Char)
  pc : LoopPC
deriving DecidableEq

/-- One step of the streaming consumer loop (source lines 185–194):
- at the outer test, `while output["waiting"] and elf_server.cancel_gen == False`:
  enter the inner wait when the test passes, otherwise exit the loop and
  reset the cancellation flag (`elf_server.cancel_gen = False`, line 194);
- at the inner test, `while output["waiting"] and len(output["new"])==0`:
  sleep one poll interval and re-test while it passes (the test does not
  read the cancellation flag), otherwise fall through to the drain;
- the drain yields every pending chunk in arrival order and clears the
  pending list, returning to the outer test. -/
def consumerStep (s : LoopState) : LoopState :=
  match s.pc with
  | LoopPC.outerTest =>
    if s.waiting && !s.cancel then ⟨s.waiting, s.pending, s.cancel, s.yielded, LoopPC.innerTest⟩
    else ⟨s.waiting, s.pending, false, s.yielded, LoopPC.done⟩
  | LoopPC.innerTest =>
    if s.waiting && s.pending.isEmpty then s
    else ⟨s.waiting, s.pending, s.cancel, s.yielded, LoopPC.drain⟩
  | LoopPC.drain =>
    ⟨s.waiting, [], s.cancel, s.yielded ++ s.pending, LoopPC.outerTest⟩
  | LoopPC.done => s

/-- The `/stop_gen` endpoint (source lines 489–492): set the process-wide
cancellation flag and answer `{"status": True}`. -/
def stop_gen (s : LoopState) : LoopState × Bool :=
  (⟨s.waiting, s.pending, true, s.yielded, s.pc⟩, true)

/-- Combined producer/consumer state of the `/lollms_generate` streaming
bridge: `toEmit` is the chunk sequence the binding has yet to offer to the
callback, `text` is `output["text"]`, `waiting` is `output["waiting"]`,
`pending` is `output["new"]` (forwarded, not yet drained), `cancel` is
`elf_server.cancel_gen`, `yielded` the chunks delivered to the HTTP
client so far, and `pc` the consumer loop's position. -/
structure SysState where
  toEmit : List (List Char)
  text : List Char
  waiting : Bool
  pending : List (List Char)
  cancel : Bool
  yielded : List (List Char)
  pc : LoopPC
deriving DecidableEq

/-- One step of the background producer thread (`chunks_builder`, source
lines 168–183): offer the next chunk to the streaming callback — on a
continue signal keep going, on a stop signal `generate` returns and no
further chunks are offered; once no chunks remain, set
`output["waiting"] = False` (line 181). -/
def producerStep (antiprompts : List (List Char)) (s : SysState) : SysState :=
  match s.toEmit with
  | [] => if s.waiting then { s with waiting := false } else s
  | c :: rest =>
    let r := streamCallback antiprompts s.cancel ⟨s.text, s.pending⟩ (some c)
    if r.2 == some true then
      { s with toEmit := rest, text := r.1.text, pending := r.1.pending }
    else
      { s with toEmit := [], text := r.1.text, pending := r.1.pending }

/-- One step of the foreground consumer loop (source lines 185–194), the
same transitions as `consumerStep` lifted to the combined state: note the
exit transition performs no final drain, so whatever is still pending when
`waiting` is observed false is never yielded. -/
def consumerSysStep (s : SysState) : SysState :=
  match s.pc with
  | LoopPC.outerTest =>
    if s.waiting && !s.cancel then { s with pc := LoopPC.innerTest }
    else { s with cancel := false, pc := LoopPC.done }
  | LoopPC.innerTest =>
    if s.waiting && s.pending.isEmpty then s
    else { s with pc := LoopPC.drain }
  | LoopPC.drain =>
    { s with pending := [], yielded := s.yielded ++ s.pending, pc := LoopPC.outerTest }
  | LoopPC.done => s

/-- One interleaving step of the streaming bridge: `true` moves the
producer thread, `false` the consumer loop. -/
def sysStep (antiprompts : List (List Char)) (move : Bool) (s : SysState) :
    SysState :=
  if move then producerStep antiprompts s else consumerSysStep s

/-- Run the streaming bridge under an explicit interleaving schedule. -/
def runSched (antiprompts : List (List Char)) : List Bool → SysState → SysState
  | [], s => s
  | m :: ms, s => runSched antiprompts ms (sysStep antiprompts m s)

/-- Initial bridge state of a streaming request whose binding will offer
`chunks` (source lines 141–144 and 182–184): empty accumulated text and
pending list, generation in progress, cancellation clear, consumer at the
outer test. -/
def initSys (chunks : List (List Char)) : SysState :=
  ⟨chunks, [], true, [], false, [], LoopPC.outerTest⟩

/-- Invariant of cancellation-free streaming runs with no antiprompt
match: the flag stays clear; the yielded, pending and still-to-offer
chunks partition the offered chunks in order; the accumulated text is the
flattening of the processed part; generation is over once `waiting` is
false; and the loop exits only after `waiting` is false. -/
def SysInv (chunks : List (List Char)) (s : SysState) : Prop :=
  s.cancel = false ∧
  s.yielded ++ s.pending ++ s.toEmit = chunks ∧
  s.text = (s.yielded ++ s.pending).flatten ∧
  (s.waiting = false → s.toEmit = []) ∧
  (s.pc = LoopPC.done → s.waiting = false)

/-- A sample configuration used by concrete witnesses. -/
def configW : SamplingConfig :=
  ⟨(4 : Rat) / 10, 50, (6 : Rat) / 10, (13 : Rat) / 10, 40, -1, 1⟩

/-- A sample binding whose full-parameter call offers the chunks
`["ab", "c"]`. -/
def bindingW : Binding where
  emit := fun _ _ _ => Except.ok [['a', 'b'], ['c']]
  emitT := fun _ _ _ => Except.ok []
  emitLoose := fun _ _ _ => Except.ok []

/-- A sample server with `bindingW` mounted. -/
def serverW : ElfServer := ⟨some bindingW, configW⟩

/-- A sample `/lollms_generate` request: non-streaming, `top_k` set,
every other sampling field unset. -/
def reqW : LollmsGenerateRequest :=
  ⟨['h', 'i'], 64, false, none, some 7, none, none, none, none, none⟩

/-- A sample `/v1/chat/completions` request. -/
def reqCW : V1ChatRequest := ⟨[], 16, false, none⟩

/-- A sample `/v1/completions` request. -/
def reqVW : V1CompletionRequest := ⟨some ['p'], some 8, some false, none⟩

/-- A sample binding whose every call raises the exception `"boom"`. -/
def bindingErr : Binding where
  emit := fun _ _ _ => Except.error ['b', 'o', 'o', 'm']
  emitT := fun _ _ _ => Except.error ['b', 'o', 'o', 'm']
  emitLoose := fun _ _ _ => Except.error ['b', 'o', 'o', 'm']

/-- A sample server with the raising binding mounted. -/
def serverErr : ElfServer := ⟨some bindingErr, configW⟩

/-- A sample binding whose temperature-only call reports whether the
max-token count it received equals `1024`. -/
def bindingNPRecorder : Binding where
  emit := fun _ _ _ => Except.ok []
  emitT := fun _ np _ => Except.ok [if np == 1024 then ['y'] else ['n']]
  emitLoose := fun _ _ _ => Except.ok []

theorem remove_text_nil (a : List Char) : remove_text_from_string [] a = [] := by
  unfold remove_text_from_string
  cases h : findMarkerIdx a [] <;> simp

theorem truncateFirst_nil (antiprompts : List (List Char)) :
    truncateFirst antiprompts [] = [] := by
  unfold truncateFirst
  cases h : detect_antiprompt antiprompts [] <;> simp [remove_text_nil]

theorem runGenerate_truncate (antiprompts : List (List Char)) :
    ∀ (chunks : List (List Char)) (acc : List Char),
      truncateFirst antiprompts acc = acc →
      runGenerate antiprompts chunks acc =
        truncateFirst antiprompts
          (acc ++ (emittedChunks antiprompts chunks acc).flatten)
  | [], acc, h => by
    simp [runGenerate, emittedChunks, h]
  | c :: rest, acc, h => by
    cases hd : detect_antiprompt antiprompts (acc ++ c) with
    | some a =>
      simp [runGenerate, emittedChunks, nostreamCallback, hd, truncateFirst]
    | none =>
      have ih := runGenerate_truncate antiprompts rest (acc ++ c)
        (by simp [truncateFirst, hd])
      simp [runGenerate, emittedChunks, nostreamCallback, hd, ih,
        List.append_assoc]

theorem leadsWith_append : ∀ (pat s u : List Char),
    leadsWith s pat = true → leadsWith (s ++ u) pat = true
  | [], s, u, _ => by cases s <;> simp [leadsWith]
  | p :: ps, [], u, h => by simp [leadsWith] at h
  | p :: ps, c :: s, u, h => by
    simp [leadsWith] at h ⊢
    exact ⟨h.1, leadsWith_append ps s u h.2⟩

theorem findMarkerIdx_isSome_of_leadsWith : ∀ (pat s : List Char),
    leadsWith s pat = true → (findMarkerIdx pat s).isSome = true
  | _, [], h => by simp [findMarkerIdx, h]
  | _, c :: s, h => by simp [findMarkerIdx, h]

theorem findMarkerIdx_append_isSome : ∀ (pat s u : List Char),
    (findMarkerIdx pat s).isSome = true →
    (findMarkerIdx pat (s ++ u)).isSome = true
  | pat, [], u, h => by
    have hl : leadsWith [] pat = true := by
      by_contra hl
      simp [findMarkerIdx, hl] at h
    exact findMarkerIdx_isSome_of_leadsWith pat ([] ++ u)
      (leadsWith_append pat [] u hl)
  | pat, c :: s, u, h => by
    by_cases hl : leadsWith (c :: s) pat = true
    · exact findMarkerIdx_isSome_of_leadsWith pat ((c :: s) ++ u)
        (leadsWith_append pat (c :: s) u hl)
    · have h2 : (findMarkerIdx pat s).isSome = true := by
        simp [findMarkerIdx, hl] at h
        simpa using h
      have h3 := findMarkerIdx_append_isSome pat s u h2
      have hcons : (c :: s) ++ u = c :: (s ++ u) := rfl
      rw [hcons]
      by_cases hl2 : leadsWith (c :: (s ++ u)) pat = true
      · exact findMarkerIdx_isSome_of_leadsWith pat _ hl2
      · simp [findMarkerIdx, hl2]
        simpa using h3

theorem detect_antiprompt_none_of_append (antiprompts : List (List Char))
    (s u : List Char) (h : detect_antiprompt antiprompts (s ++ u) = none) :
    detect_antiprompt antiprompts s = none := by
  unfold detect_antiprompt at h ⊢
  rw [List.find?_eq_none] at h ⊢
  intro a ha hp
  exact h a ha (findMarkerIdx_append_isSome a s u hp)

theorem detect_isSome_of_mem (antiprompts : List (List Char)) (text m : List Char)
    (hm : m ∈ antiprompts) (ho : (findMarkerIdx m text).isSome = true) :
    (detect_antiprompt antiprompts text).isSome = true := by
  unfold detect_antiprompt
  exact List.find?_isSome.mpr ⟨m, hm, ho⟩

theorem runGenerate_no_match (antiprompts : List (List Char)) :
    ∀ (chunks : List (List Char)) (acc : List Char),
      detect_antiprompt antiprompts (acc ++ chunks.flatten) = none →
      runGenerate antiprompts chunks acc = acc ++ chunks.flatten
  | [], acc, _ => by simp [runGenerate]
  | c :: rest, acc, h => by
    have hassoc : acc ++ (c :: rest).flatten = (acc ++ c) ++ rest.flatten := by
      rw [List.flatten_cons]
      exact (List.append_assoc acc c rest.flatten).symm
    rw [hassoc] at h
    have hnone : detect_antiprompt antiprompts (acc ++ c) =
        none :=
      detect_antiprompt_none_of_append antiprompts (acc ++ c) rest.flatten h
    have ih := runGenerate_no_match antiprompts rest (acc ++ c) h
    rw [hassoc]
    simp [runGenerate, nostreamCallback, hnone, ih]

theorem runStream_no_match (antiprompts : List (List Char)) :
    ∀ (chunks : List (List Char)) (st : StreamOut),
      detect_antiprompt antiprompts (st.text ++ chunks.flatten) = none →
      runStream antiprompts chunks st =
        ⟨st.text ++ chunks.flatten, st.pending ++ chunks⟩
  | [], st, _ => by simp [runStream]
  | c :: rest, st, h => by
    have hassoc : st.text ++ (c :: rest).flatten =
        (st.text ++ c) ++ rest.flatten := by
      rw [List.flatten_cons]
      exact (List.append_assoc st.text c rest.flatten).symm
    rw [hassoc] at h
    have hnone : detect_antiprompt antiprompts (st.text ++ c) = none :=
      detect_antiprompt_none_of_append antiprompts (st.text ++ c) rest.flatten h
    have ih := runStream_no_match antiprompts rest ⟨st.text ++ c, st.pending ++ [c]⟩ h
    rw [hassoc]
    simp [runStream, streamCallback, hnone, ih, List.append_assoc]

theorem sysInv_step (antiprompts chunks : List (List Char))
    (hnm : detect_antiprompt antiprompts chunks.flatten = none)
    (move : Bool) (s : SysState) (h : SysInv chunks s) :
    SysInv chunks (sysStep antiprompts move s) := by
  obtain ⟨te, tx, w, p, c, y, pc⟩ := s
  obtain ⟨hc, hpart, htext, hwait, hdone⟩ := h
  dsimp only [SysInv] at hc hpart htext hwait hdone ⊢
  subst hc
  cases move with
  | false =>
    cases pc with
    | outerTest =>
      cases w with
      | true =>
        exact ⟨rfl, hpart, htext, hwait, fun hd => LoopPC.noConfusion hd⟩
      | false =>
        exact ⟨rfl, hpart, htext, hwait, fun _ => rfl⟩
    | innerTest =>
      cases w with
      | false =>
        exact ⟨rfl, hpart, htext, hwait, fun hd => LoopPC.noConfusion hd⟩
      | true =>
        cases p with
        | nil =>
          exact ⟨rfl, hpart, htext, hwait, hdone⟩
        | cons q qs =>
          exact ⟨rfl, hpart, htext, hwait, fun hd => LoopPC.noConfusion hd⟩
    | drain =>
      have h2 : ((y ++ p) ++ []) ++ te = chunks := by
        rw [List.append_nil]
        exact hpart
      have h3 : tx = ((y ++ p) ++ []).flatten := by
        rw [List.append_nil]
        exact htext
      exact ⟨rfl, h2, h3, hwait, fun hd => LoopPC.noConfusion hd⟩
    | done =>
      exact ⟨rfl, hpart, htext, hwait, hdone⟩
  | true =>
    cases te with
    | nil =>
      cases w with
      | true =>
        exact ⟨rfl, hpart, htext, fun _ => rfl, fun _ => rfl⟩
      | false =>
        exact ⟨rfl, hpart, htext, hwait, hdone⟩
    | cons ch rest =>
      have hflat : (y ++ p).flatten ++ (ch ++ rest.flatten) = chunks.flatten := by
        have hcg := congrArg List.flatten hpart
        rw [List.flatten_append, List.flatten_cons] at hcg
        exact hcg
      have hflat2 : (tx ++ ch) ++ rest.flatten = chunks.flatten := by
        rw [htext, List.append_assoc]
        exact hflat
      have hpre : detect_antiprompt antiprompts (tx ++ ch) = none := by
        apply detect_antiprompt_none_of_append antiprompts (tx ++ ch) rest.flatten
        rw [hflat2]
        exact hnm
      have hcb : streamCallback antiprompts false ⟨tx, p⟩ (some ch) =
          (⟨tx ++ ch, p ++ [ch]⟩, some true) := by
        simp [streamCallback, hpre]
      have hstep : sysStep antiprompts true ⟨ch :: rest, tx, w, p, false, y, pc⟩ =
          ⟨rest, tx ++ ch, w, p ++ [ch], false, y, pc⟩ := by
        simp [sysStep, producerStep, hcb]
      rw [hstep]
      refine ⟨rfl, ?_, ?_, ?_, hdone⟩
      · simpa [List.append_assoc] using hpart
      · rw [htext]
        simp [List.flatten_append, List.append_assoc]
      · exact fun hw2 => absurd (hwait hw2) (List.cons_ne_nil ch rest)

theorem sysInv_run (antiprompts chunks : List (List Char))
    (hnm : detect_antiprompt antiprompts chunks.flatten = none) :
    ∀ (sch : List Bool) (s : SysState), SysInv chunks s →
      SysInv chunks (runSched antiprompts sch s)
  | [], _, h => h
  | m :: ms, s, h =>
    sysInv_run antiprompts chunks hnm ms (sysStep antiprompts m s)
      (sysInv_step antiprompts chunks hnm m s h)

theorem flattenMessages_go (msgs : List Message) :
    ∀ acc : List Char,
      List.foldl (fun acc m => acc ++ fmtMessage m) acc msgs =
        acc ++ (msgs.map fmtMessage).flatten := by
  induction msgs with
  | nil => intro acc; simp
  | cons m rest ih => intro acc; simp [ih, List.append_assoc]

/-- C1: for every request to `/lollms_generate` with `stream=false` and a
mounted binding, the returned text equals the concatenation of all chunks
the binding's callback received, truncated at the first antiprompt match
if any match occurred. -/
theorem c1_nostream_returns_truncated_concat
    (antiprompts : List (List Char)) (server : ElfServer)
    (req : LollmsGenerateRequest) (b : Binding) (chunks : List (List Char))
    (hb : server.binding = some b) (hs : req.stream = false)
    (he : b.emit req.text req.n_predict (resolvedParams req server.config) =
      Except.ok chunks) :
    lollms_generate_ep antiprompts server req =
      ⟨EndpointResponse.textResponse
        (truncateFirst antiprompts
          (emittedChunks antiprompts chunks []).flatten),
       1, []⟩ := by
  have h0 : truncateFirst antiprompts [] = [] := truncateFirst_nil antiprompts
  have hrun := runGenerate_truncate antiprompts chunks [] h0
  simp only [List.nil_append] at hrun
  simp [lollms_generate_ep, lollms_generate_body, wrapHandler, hb, hs, he, hrun]

/-- C1 witness: a concrete non-streaming run on the sample server. -/
theorem c1_nostream_returns_truncated_concat_witness :
    lollms_generate_ep [['z']] serverW reqW =
      ⟨EndpointResponse.textResponse
        (truncateFirst [['z']]
          (emittedChunks [['z']] [['a', 'b'], ['c']] []).flatten),
       1, []⟩ :=
  c1_nostream_returns_truncated_concat [['z']] serverW reqW bindingW
    [['a', 'b'], ['c']] rfl rfl rfl

/-- C2 counterexample: with antiprompt `"b"` and the single chunk `"ab"`,
the non-streaming path returns `"a"` (the part of the chunk before the
marker survives the truncation), while a complete streaming run of the
identical request — the producer offers the chunk (the callback matches,
truncates and withholds it) and finishes, then the consumer observes
completion and exits — delivers nothing to the client, so the streamed
concatenation differs from the non-streaming result. -/
theorem c2_counterexample :
    runGenerate [['b']] [['a', 'b']] [] = ['a'] ∧
    (runSched [['b']] [true, true, false] (initSys [['a', 'b']])).pc =
      LoopPC.done ∧
    (runSched [['b']] [true, true, false] (initSys [['a', 'b']])).yielded.flatten
      = [] ∧
    (['a'] : List Char) ≠ [] := by decide

/-- C2 amended: for `/lollms_generate`, under any interleaving of the
producer thread and the consumer loop in which no antiprompt match occurs
and the loop exits only after the last forwarded chunk was drained
(pending list empty at exit — the code has no final drain, so this is a
scheduling assumption, not a guarantee), the concatenation of the chunks
yielded to the HTTP client equals the text the non-streaming path returns
for the identical request. -/
theorem c2_stream_eq_nostream_no_match (antiprompts chunks : List (List Char))
    (sch : List Bool)
    (hnm : detect_antiprompt antiprompts chunks.flatten = none)
    (hexit : (runSched antiprompts sch (initSys chunks)).pc = LoopPC.done)
    (hdrained : (runSched antiprompts sch (initSys chunks)).pending = []) :
    (runSched antiprompts sch (initSys chunks)).yielded.flatten =
      runGenerate antiprompts chunks [] := by
  have hinit : SysInv chunks (initSys chunks) :=
    ⟨rfl, rfl, rfl, fun h => Bool.noConfusion h, fun h => LoopPC.noConfusion h⟩
  have hinv : SysInv chunks (runSched antiprompts sch (initSys chunks)) :=
    sysInv_run antiprompts chunks hnm sch (initSys chunks) hinit
  obtain ⟨_, hpart, _, hwait, hpcw⟩ := hinv
  have hw := hpcw hexit
  have hte := hwait hw
  rw [hdrained, hte] at hpart
  have hy : (runSched antiprompts sch (initSys chunks)).yielded = chunks := by
    simpa using hpart
  rw [hy]
  have hg := runGenerate_no_match antiprompts chunks [] (by simpa using hnm)
  simp [hg]

/-- C2 witness: a concrete no-match run of the chunks `"a"`, `"b"` under a
schedule that drains each chunk and drains again before the consumer
observes completion; streaming delivery and the non-streaming result
agree. -/
theorem c2_stream_eq_nostream_no_match_witness :
    (runSched [['z']]
      [true, false, false, false, true, false, false, false, true, false]
      (initSys [['a'], ['b']])).yielded.flatten =
      runGenerate [['z']] [['a'], ['b']] [] :=
  c2_stream_eq_nostream_no_match [['z']] [['a'], ['b']]
    [true, false, false, false, true, false, false, false, true, false]
    (by decide) (by decide) (by decide)

/-- C3 counterexample: a streaming request sitting in the inner wait loop
(generation still marked waiting, no pending chunk) does not end within
one poll interval after `/stop_gen` sets the cancellation flag: the inner
wait test does not read the flag, so one poll step leaves the state
unchanged and the loop has not exited. -/
theorem c3_counterexample :
    (stop_gen ⟨true, [], false, [], LoopPC.innerTest⟩).1 =
      ⟨true, [], true, [], LoopPC.innerTest⟩ ∧
    consumerStep ⟨true, [], true, [], LoopPC.innerTest⟩ =
      ⟨true, [], true, [], LoopPC.innerTest⟩ ∧
    (⟨true, [], true, [], LoopPC.innerTest⟩ : LoopState).pc ≠ LoopPC.done := by
  decide

/-- C3 amended: once the consumer reaches the outer loop test with the
cancellation flag set, the loop exits immediately, yielding nothing
further and resetting the flag to false; and whenever the streaming loop
exits, the cancellation flag is false immediately afterwards. -/
theorem c3_cancel_amended (s : LoopState) :
    (s.pc = LoopPC.outerTest → s.cancel = true →
      consumerStep s = ⟨s.waiting, s.pending, false, s.yielded, LoopPC.done⟩) ∧
    (s.pc ≠ LoopPC.done → (consumerStep s).pc = LoopPC.done →
      (consumerStep s).cancel = false) := by
  obtain ⟨w, p, c, y, pc⟩ := s
  constructor
  · intro hpc hc
    subst hpc
    subst hc
    simp [consumerStep]
  · intro hne hdone
    cases pc with
    | outerTest =>
      by_cases hwc : (w && !c) = true <;>
        simp [consumerStep, hwc] at hdone ⊢
    | innerTest =>
      by_cases hwp : (w && p.isEmpty) = true <;>
        simp [consumerStep, hwp] at hdone
    | drain => simp [consumerStep] at hdone
    | done => exact absurd rfl hne

/-- C3 amended witness: a concrete state at the outer test with the flag
set exits at once with the flag reset; a concrete normal exit also leaves
the flag false. -/
theorem c3_cancel_amended_witness :
    consumerStep ⟨true, [['x']], true, [], LoopPC.outerTest⟩ =
      ⟨true, [['x']], false, [], LoopPC.done⟩ ∧
    (consumerStep ⟨false, [], false, [], LoopPC.outerTest⟩).cancel = false :=
  ⟨(c3_cancel_amended ⟨true, [['x']], true, [], LoopPC.outerTest⟩).1 rfl rfl,
   (c3_cancel_amended ⟨false, [], false, [], LoopPC.outerTest⟩).2
     (by decide) (by decide)⟩

/-- C4: when a configured antiprompt marker is split across two
consecutive chunks (no match after the first chunk, the marker present
once the second is appended), the first callback invocation continues,
and the second detects the marker, truncates the accumulated text at the
marker's first occurrence, does not forward the matching chunk, and
signals the generation call to stop. -/
theorem c4_boundary_detection (antiprompts : List (List Char)) (st : StreamOut)
    (c1 c2 m : List Char) (hm : m ∈ antiprompts)
    (h1 : detect_antiprompt antiprompts (st.text ++ c1) = none)
    (h2 : (findMarkerIdx m ((st.text ++ c1) ++ c2)).isSome = true) :
    (streamCallback antiprompts false st (some c1)).2 = some true ∧
    (streamCallback antiprompts false st (some c1)).1.text = st.text ++ c1 ∧
    ∃ a i, detect_antiprompt antiprompts ((st.text ++ c1) ++ c2) = some a ∧
      findMarkerIdx a ((st.text ++ c1) ++ c2) = some i ∧
      streamCallback antiprompts false
          ((streamCallback antiprompts false st (some c1)).1) (some c2) =
        (⟨((st.text ++ c1) ++ c2).take i,
          (streamCallback antiprompts false st (some c1)).1.pending⟩,
         some false) := by
  have hfirst : streamCallback antiprompts false st (some c1) =
      (⟨st.text ++ c1, st.pending ++ [c1]⟩, some true) := by
    simp [streamCallback, h1]
  obtain ⟨a, ha⟩ := Option.isSome_iff_exists.mp
    (detect_isSome_of_mem antiprompts ((st.text ++ c1) ++ c2) m hm h2)
  have ha2 : List.find? (fun x => (findMarkerIdx x ((st.text ++ c1) ++ c2)).isSome)
      antiprompts = some a := ha
  have hocc : (findMarkerIdx a ((st.text ++ c1) ++ c2)).isSome = true := by
    have h3 := @List.find?_some (List Char)
      (fun x => (findMarkerIdx x ((st.text ++ c1) ++ c2)).isSome) a antiprompts ha2
    simpa using h3
  obtain ⟨i, hi⟩ := Option.isSome_iff_exists.mp hocc
  refine ⟨by rw [hfirst], by rw [hfirst], a, i, ha, hi, ?_⟩
  rw [hfirst]
  have ha3 : detect_antiprompt antiprompts (st.text ++ (c1 ++ c2)) = some a := by
    rw [← List.append_assoc]
    exact ha
  have hi3 : findMarkerIdx a (st.text ++ (c1 ++ c2)) = some i := by
    rw [← List.append_assoc]
    exact hi
  simp [streamCallback, ha3, remove_text_from_string, hi3]

/-- C4 witness: antiprompt `"bc"` split across the chunks `"ab"` and
`"cd"`. -/
theorem c4_boundary_detection_witness :
    (streamCallback [['b', 'c']] false ⟨[], []⟩ (some ['a', 'b'])).2 =
      some true ∧
    (streamCallback [['b', 'c']] false ⟨[], []⟩ (some ['a', 'b'])).1.text =
      [] ++ ['a', 'b'] ∧
    ∃ a i, detect_antiprompt [['b', 'c']] (([] ++ ['a', 'b']) ++ ['c', 'd']) =
        some a ∧
      findMarkerIdx a (([] ++ ['a', 'b']) ++ ['c', 'd']) = some i ∧
      streamCallback [['b', 'c']] false
          ((streamCallback [['b', 'c']] false ⟨[], []⟩ (some ['a', 'b'])).1)
          (some ['c', 'd']) =
        (⟨(([] ++ ['a', 'b']) ++ ['c', 'd']).take i,
          (streamCallback [['b', 'c']] false ⟨[], []⟩
            (some ['a', 'b'])).1.pending⟩,
         some false) :=
  c4_boundary_detection [['b', 'c']] ⟨[], []⟩ ['a', 'b'] ['c', 'd'] ['b', 'c']
    (by decide) (by decide) (by decide)

/-- C5: each sampling parameter of `/lollms_generate` that is unset in the
request resolves to the server configuration's value, and each set
parameter passes through unchanged. -/
theorem c5_sampling_defaults (req : LollmsGenerateRequest)
    (cfg : SamplingConfig) :
    (req.temperature = none →
      (resolvedParams req cfg).temperature = cfg.temperature) ∧
    (∀ v, req.temperature = some v →
      (resolvedParams req cfg).temperature = v) ∧
    (req.top_k = none → (resolvedParams req cfg).top_k = cfg.top_k) ∧
    (∀ v, req.top_k = some v → (resolvedParams req cfg).top_k = v) ∧
    (req.top_p = none → (resolvedParams req cfg).top_p = cfg.top_p) ∧
    (∀ v, req.top_p = some v → (resolvedParams req cfg).top_p = v) ∧
    (req.repeat_penalty = none →
      (resolvedParams req cfg).repeat_penalty = cfg.repeat_penalty) ∧
    (∀ v, req.repeat_penalty = some v →
      (resolvedParams req cfg).repeat_penalty = v) ∧
    (req.repeat_last_n = none →
      (resolvedParams req cfg).repeat_last_n = cfg.repeat_last_n) ∧
    (∀ v, req.repeat_last_n = some v →
      (resolvedParams req cfg).repeat_last_n = v) ∧
    (req.seed = none → (resolvedParams req cfg).seed = cfg.seed) ∧
    (∀ v, req.seed = some v → (resolvedParams req cfg).seed = v) ∧
    (req.n_threads = none →
      (resolvedParams req cfg).n_threads = cfg.n_threads) ∧
    (∀ v, req.n_threads = some v → (resolvedParams req cfg).n_threads = v) := by
  obtain ⟨tx, np, st, t, tk, tp, rp, rln, sd, nth⟩ := req
  refine ⟨?_, ?_, ?_, ?_, ?_, ?_, ?_, ?_, ?_, ?_, ?_, ?_, ?_, ?_⟩ <;>
    first
      | (intro h; subst h; rfl)
      | (intro v h; subst h; rfl)

/-- C5 witness: on the sample request, the unset temperature falls back to
the configured value and the set `top_k` passes through. -/
theorem c5_sampling_defaults_witness :
    (resolvedParams reqW configW).temperature = configW.temperature ∧
    (resolvedParams reqW configW).top_k = 7 :=
  ⟨(c5_sampling_defaults reqW configW).1 rfl,
   (c5_sampling_defaults reqW configW).2.2.2.1 7 rfl⟩

/-- C6: the prompt `/v1/chat/completions` passes to the binding equals the
concatenation, over the request's messages in order, of
`"{role}: {content}\n"` for each message (the code's running `+=` fold
equals the map-then-concatenate form). -/
theorem c6_chat_prompt_concat (msgs : List Message) :
    flattenMessages msgs = (msgs.map fmtMessage).flatten := by
  have h := flattenMessages_go msgs []
  simpa [flattenMessages] using h

/-- C7 counterexample: with `max_tokens = 0`, `/v1/chat/completions`
passes `1024` to the binding, not the request's value `0`; a binding that
reports the max-token count it received confirms this at the endpoint
level. -/
theorem c7_counterexample :
    v1ChatNPredict 0 = 1024 ∧ (0 : Int) ≠ 1024 ∧
    (v1_chat_completions_ep [] ⟨some bindingNPRecorder, configW⟩
        ⟨[], 0, false, none⟩).response =
      EndpointResponse.chatResponse ['y'] := by
  refine ⟨rfl, by decide, rfl⟩

/-- C7 amended: the max-token count `/v1/chat/completions` passes to the
binding equals the request's `max_tokens` when it is positive, and `1024`
otherwise. -/
theorem c7_npredict_amended (t : Int) :
    (0 < t → v1ChatNPredict t = t) ∧ (t ≤ 0 → v1ChatNPredict t = 1024) := by
  constructor
  · intro h
    simp [v1ChatNPredict, h]
  · intro h
    simp [v1ChatNPredict, not_lt.mpr h]

/-- C7 amended witness: concrete positive and non-positive max-token
counts. -/
theorem c7_npredict_amended_witness :
    v1ChatNPredict 5 = 5 ∧ v1ChatNPredict 0 = 1024 :=
  ⟨(c7_npredict_amended 5).1 (by decide), (c7_npredict_amended 0).2 (by decide)⟩

/-- C8: with no binding mounted, all three generation endpoints return the
null response, never invoke the binding's generate call, and report no
error. -/
theorem c8_no_binding_null (antiprompts : List (List Char)) (server : ElfServer)
    (reqL : LollmsGenerateRequest) (reqC : V1ChatRequest)
    (reqV : V1CompletionRequest) (hb : server.binding = none) :
    lollms_generate_ep antiprompts server reqL =
      ⟨EndpointResponse.nullResponse, 0, []⟩ ∧
    v1_chat_completions_ep antiprompts server reqC =
      ⟨EndpointResponse.nullResponse, 0, []⟩ ∧
    v1_completion_ep antiprompts server reqV =
      ⟨EndpointResponse.nullResponse, 0, []⟩ := by
  refine ⟨?_, ?_, ?_⟩ <;>
    simp [lollms_generate_ep, lollms_generate_body, v1_chat_completions_ep,
      v1_chat_completions_body, v1_completion_ep, v1_completion_body,
      wrapHandler, hb]

/-- C8 witness: concrete requests against a server with no binding. -/
theorem c8_no_binding_null_witness :
    lollms_generate_ep [] ⟨none, configW⟩ reqW =
      ⟨EndpointResponse.nullResponse, 0, []⟩ ∧
    v1_chat_completions_ep [] ⟨none, configW⟩ reqCW =
      ⟨EndpointResponse.nullResponse, 0, []⟩ ∧
    v1_completion_ep [] ⟨none, configW⟩ reqVW =
      ⟨EndpointResponse.nullResponse, 0, []⟩ :=
  c8_no_binding_null [] ⟨none, configW⟩ reqW reqCW reqVW rfl

/-- C9: an exception raised by the generate call before the response is
returned (the non-streaming paths of all three endpoints, and the eager
streaming path of `/v1/completions`, which behaves identically on error)
is caught by the handler, reported to the server's error sink, and turned
into the `{"status": False, "error": msg}` response. -/
theorem c9_exception_caught (antiprompts : List (List Char)) (server : ElfServer)
    (b : Binding) (e : List Char) (reqL : LollmsGenerateRequest)
    (reqC : V1ChatRequest) (reqV : V1CompletionRequest)
    (hb : server.binding = some b) :
    (reqL.stream = false →
      b.emit reqL.text reqL.n_predict (resolvedParams reqL server.config) =
        Except.error e →
      lollms_generate_ep antiprompts server reqL =
        ⟨EndpointResponse.errorResponse e, 1, [e]⟩) ∧
    (reqC.stream = false →
      b.emitT (flattenMessages reqC.messages) (v1ChatNPredict reqC.max_tokens)
        (pyOr reqC.temperature server.config.temperature) = Except.error e →
      v1_chat_completions_ep antiprompts server reqC =
        ⟨EndpointResponse.errorResponse e, 1, [e]⟩) ∧
    (b.emitLoose reqV.prompt reqV.max_tokens
        (match reqV.temperature with
          | some v => v
          | none => server.config.temperature) = Except.error e →
      v1_completion_ep antiprompts server reqV =
        ⟨EndpointResponse.errorResponse e, 1, [e]⟩) := by
  refine ⟨fun hs he => ?_, fun hs he => ?_, fun he => ?_⟩
  · simp [lollms_generate_ep, lollms_generate_body, wrapHandler, hb, hs, he]
  · simp [v1_chat_completions_ep, v1_chat_completions_body, wrapHandler,
      hb, hs, he]
  · cases hstream : reqV.stream.getD false <;>
      simp [v1_completion_ep, v1_completion_body, wrapHandler, hb, he, hstream]

/-- C9 witness: the raising sample binding produces the error outcome on
all three endpoints. -/
theorem c9_exception_caught_witness :
    lollms_generate_ep [] serverErr reqW =
      ⟨EndpointResponse.errorResponse ['b', 'o', 'o', 'm'], 1,
        [['b', 'o', 'o', 'm']]⟩ ∧
    v1_chat_completions_ep [] serverErr reqCW =
      ⟨EndpointResponse.errorResponse ['b', 'o', 'o', 'm'], 1,
        [['b', 'o', 'o', 'm']]⟩ ∧
    v1_completion_ep [] serverErr reqVW =
      ⟨EndpointResponse.errorResponse ['b', 'o', 'o', 'm'], 1,
        [['b', 'o', 'o', 'm']]⟩ :=
  ⟨(c9_exception_caught [] serverErr bindingErr ['b', 'o', 'o', 'm']
      reqW reqCW reqVW rfl).1 rfl rfl,
   (c9_exception_caught [] serverErr bindingErr ['b', 'o', 'o', 'm']
      reqW reqCW reqVW rfl).2.1 rfl rfl,
   (c9_exception_caught [] serverErr bindingErr ['b', 'o', 'o', 'm']
      reqW reqCW reqVW rfl).2.2 rfl⟩

/-- C10 counterexample: when the global cancellation flag is set, a
callback invocation whose chunk is `None` returns the explicit stop
signal `False` (the cancellation test precedes the `None` test), so the
claim's "does not terminate generation" fails for that invocation. -/
theorem c10_counterexample :
    (streamCallback [] true ⟨[], []⟩ none).2 = some false := by decide

/-- C10 amended: in the streaming callbacks of `/lollms_generate` and
`/v1/chat/completions`, when the global cancellation flag is not set, an
invocation whose chunk is `None` leaves the session state unchanged
(accumulated text and pending list untouched, no antiprompt scan) and
returns no stop signal (Python `None`, not `False`). -/
theorem c10_none_chunk_frame (antiprompts : List (List Char)) (st : StreamOut) :
    streamCallback antiprompts false st none = (st, none) ∧
    (streamCallback antiprompts false st none).2 ≠ some false := by
  refine ⟨rfl, ?_⟩
  simp [streamCallback]

end Lollms
